import Mathlib

/-!
Verification of the ascii-art renderer (src/main.rs) against its
specification.

Shallow embedding conventions:
* Rust `f32` arithmetic (pixel intensity, the character index computation)
  is modelled by exact rational arithmetic over `ℚ`; `value as usize` on a
  non-negative float truncates toward zero, modelled by `Int.floor` followed
  by `Int.toNat` (which also reproduces the saturation of negatives to 0).
* Rust `String` values are modelled as `List Char`.
* Panicking operations (`%` with a zero divisor, slice indexing out of
  bounds) are modelled in `Option`, `none` standing for a panic.
* The external image decoder is modelled by passing the decode outcome
  (`Except (List Char) Image`, error carrying the decoder's message) to
  `load_image` directly; a decoded image is a width, a height and a pixel
  function returning an RGB triple of `u8` values modelled as `Nat`.
-/

/-- The Rust constant `DEFAULT_CHARS = ". ' , ^ \" ~ + - = # @ $"`. -/
def DEFAULT_CHARS : List Char := ". ' , ^ \" ~ + - = # @ $".toList

/-- The `AppError` struct: an error kind tag and a detail message. -/
structure AppError where
  kind : List Char
  detail : List Char
  deriving DecidableEq

/-- The `fmt::Display` implementation for `AppError` (the `match` on
`self.kind.as_str()` is rendered as an `if` chain over the same strings). -/
def displayAppError (e : AppError) : List Char :=
  if e.kind = "io".toList then "io error: ".toList ++ e.detail
  else if e.kind = "img".toList then "load img error: ".toList ++ e.detail
  else if e.kind = "conf".toList then "configuration error: ".toList ++ e.detail
  else "Unknown error occured: ".toList ++ e.detail

/-- A decoded image: dimensions plus per-coordinate RGB pixel access. -/
structure Image where
  width : Nat
  height : Nat
  pixel : Nat → Nat → Nat × Nat × Nat

/-- The pixel components of a decoded image are `u8` values, hence `≤ 255`. -/
def Image.WellFormed (img : Image) : Prop :=
  ∀ x y, (img.pixel x y).1 ≤ 255 ∧ (img.pixel x y).2.1 ≤ 255 ∧
    (img.pixel x y).2.2 ≤ 255

/-- The `AsciiPrinter` struct. -/
structure AsciiPrinter where
  src_img : Option (Except AppError Image)
  chars : List Char
  scale : Nat

/-- `Default for AsciiPrinter`: `DEFAULT_CHARS.replace(' ', "")` removes
every space character, modelled by `List.filter`. -/
def AsciiPrinter.default : AsciiPrinter :=
  { src_img := none
    chars := ' ' :: DEFAULT_CHARS.filter (fun c => c ≠ ' ')
    scale := 3 }

/-- `AsciiPrinter::load_image`: stores the decode outcome, mapping a decoder
error message to an `AppError` of kind `img`. -/
def AsciiPrinter.load_image (p : AsciiPrinter)
    (decoded : Except (List Char) Image) : AsciiPrinter :=
  { src_img :=
      some (decoded.mapError (fun msg => { kind := "img".toList, detail := msg }))
    chars := p.chars
    scale := p.scale }

/-- `AsciiPrinter::set_chars`: palette becomes a space followed by the given
characters. -/
def AsciiPrinter.set_chars (p : AsciiPrinter) (intense_chars : List Char) :
    AsciiPrinter :=
  { src_img := p.src_img
    chars := ' ' :: intense_chars
    scale := p.scale }

/-- `AsciiPrinter::set_scale`: stores the given scale unchanged. -/
def AsciiPrinter.set_scale (p : AsciiPrinter) (scale : Nat) : AsciiPrinter :=
  { src_img := p.src_img
    chars := p.chars
    scale := scale }

/-- The index computed inside `AsciiPrinter::get_char`:
`intensity / (256_f32 / self.chars.len() as f32)` cast `as usize`. -/
def AsciiPrinter.char_index (p : AsciiPrinter) (intensity : ℚ) : Nat :=
  (⌊intensity / ((256 : ℚ) / (p.chars.length : ℚ))⌋).toNat

/-- `AsciiPrinter::get_char`: `self.chars[index as usize]`, the panicking
index modelled by `List.get?`. -/
def AsciiPrinter.get_char (p : AsciiPrinter) (intensity : ℚ) : Option Char :=
  p.chars.get? (p.char_index intensity)

/-- `AsciiPrinter::get_pixel_intensity`:
`0.2989 * red + 0.5870 * green + 0.1140 * blue`. -/
def AsciiPrinter.get_pixel_intensity (red green blue : Nat) : ℚ :=
  (2989 / 10000 : ℚ) * red + (5870 / 10000 : ℚ) * green +
    (1140 / 10000 : ℚ) * blue

/-- Rust `a % b` on unsigned integers: panics (`none`) when `b = 0`. -/
def checkedMod (a b : Nat) : Option Nat :=
  if b = 0 then none else some (a % b)

/-- The loop condition `y % (self.scale * 2) == 0 && x % self.scale == 0`,
with Rust's short-circuit evaluation of `&&`. The product `self.scale * 2`
is `u32` arithmetic: it wraps modulo `2 ^ 32` (release-build semantics; a
debug build would already abort on the overflowing multiply, so wherever the
wrap changes the divisor the real program fails either way). -/
def sampleCond (p : AsciiPrinter) (y x : Nat) : Option Bool :=
  match checkedMod y ((p.scale * 2) % 2 ^ 32) with
  | none => none
  | some m1 =>
    if m1 = 0 then
      match checkedMod x p.scale with
      | none => none
      | some m2 => some (decide (m2 = 0))
    else some false

/-- Sampling one pixel inside the render loop: read the pixel at `(x, y)`,
compute its intensity and map it through the palette. -/
def samplePixelChar (p : AsciiPrinter) (img : Image) (x y : Nat) : Option Char :=
  p.get_char (AsciiPrinter.get_pixel_intensity (img.pixel x y).1
    (img.pixel x y).2.1 (img.pixel x y).2.2)

/-- Total variant of `samplePixelChar` used to state closed forms; it agrees
with `samplePixelChar` whenever the latter does not panic. -/
def samplePixelCharD (p : AsciiPrinter) (img : Image) (x y : Nat) : Char :=
  (samplePixelChar p img x y).getD ' '

/-- The inner `for x` loop of `into_print` over a list of column indices:
collects the characters printed for row `y` (left to right), `none` if any
step panics. -/
def buildRow (p : AsciiPrinter) (img : Image) (y : Nat) :
    List Nat → Option (List Char)
  | [] => some []
  | x :: xs =>
    match sampleCond p y x with
    | none => none
    | some false => buildRow p img y xs
    | some true =>
      match samplePixelChar p img x y with
      | none => none
      | some ch =>
        match buildRow p img y xs with
        | none => none
        | some rest => some (ch :: rest)

/-- The outer `for y` loop of `into_print` over a list of row indices:
collects the terminated output lines (one per row `y` with
`y % (scale * 2) == 0`, the product again wrapping in `u32`), `none` if any
step panics. -/
def renderRows (p : AsciiPrinter) (img : Image) :
    List Nat → Option (List (List Char))
  | [] => some []
  | y :: ys =>
    match buildRow p img y (List.range img.width) with
    | none => none
    | some line =>
      match checkedMod y ((p.scale * 2) % 2 ^ 32) with
      | none => none
      | some m =>
        match renderRows p img ys with
        | none => none
        | some rows => some (if m = 0 then line :: rows else rows)

/-- Outcome of `AsciiPrinter::into_print`: the list of printed lines, an
`AppError`, or a panic. -/
inductive RenderResult where
  | ok (lines : List (List Char))
  | err (e : AppError)
  | panic
  deriving DecidableEq

/-- `AsciiPrinter::into_print`: fail if no image was attached, fail with the
stored error's `Display` rendering as detail if decoding failed, otherwise
run the sampling loops and emit one final empty line. -/
def AsciiPrinter.into_print (p : AsciiPrinter) : RenderResult :=
  match p.src_img with
  | none => .err { kind := "img".toList, detail := "no image selected".toList }
  | some (.error e) => .err { kind := "img".toList, detail := displayAppError e }
  | some (.ok img) =>
    match renderRows p img (List.range img.height) with
    | none => .panic
    | some rows => .ok (rows ++ [[]])

/-- The printer `main` sends to `into_print`:
`AsciiPrinter::default().load_image(..).set_chars(args.chars).set_scale(args.scale)`.
`args.chars` is the raw `--chars` string (clap supplies `DEFAULT_CHARS`
itself when the flag is absent) and `args.scale` defaults to 3. -/
def mainPrinter (argChars : List Char) (argScale : Nat)
    (decoded : Except (List Char) Image) : AsciiPrinter :=
  ((AsciiPrinter.default.load_image decoded).set_chars argChars).set_scale argScale

/-! ### Helper lemmas about the character mapping -/

/-- The computed index is below the palette length whenever the palette is
non-empty and the intensity lies in `[0, 255]`. -/
theorem char_index_lt (p : AsciiPrinter) (i : ℚ) (hl : 1 ≤ p.chars.length)
    (h0 : 0 ≤ i) (h255 : i ≤ 255) : p.char_index i < p.chars.length := by
  unfold AsciiPrinter.char_index
  set n := p.chars.length with hn
  have hn0 : (0 : ℚ) < (n : ℚ) := by exact_mod_cast hl
  rw [div_div_eq_mul_div]
  have hx : i * (n : ℚ) / 256 < (n : ℚ) := by
    rw [div_lt_iff (by norm_num : (0 : ℚ) < 256)]
    nlinarith
  have hfloor : ⌊i * (n : ℚ) / 256⌋ < (n : ℤ) := by
    apply Int.floor_lt.mpr
    push_cast
    exact hx
  omega

/-- In-bounds palette access: `get_char` returns the `char_index`-th palette
entry when the intensity lies in `[0, 255]`. -/
theorem get_char_eq_some (p : AsciiPrinter) (i : ℚ) (hl : 1 ≤ p.chars.length)
    (h0 : 0 ≤ i) (h255 : i ≤ 255) :
    p.get_char i = some (p.chars.getD (p.char_index i) ' ') := by
  have h := char_index_lt p i hl h0 h255
  unfold AsciiPrinter.get_char
  rw [List.get?_eq_getElem?, List.getElem?_eq_getElem h, List.getD_eq_getElem?_getD,
    List.getElem?_eq_getElem h]
  rfl

/-- The intensity of any pixel is non-negative. -/
theorem get_pixel_intensity_nonneg (r g b : Nat) :
    0 ≤ AsciiPrinter.get_pixel_intensity r g b := by
  unfold AsciiPrinter.get_pixel_intensity
  positivity

/-- The intensity of a `u8` pixel is at most 255. -/
theorem get_pixel_intensity_le (r g b : Nat) (hr : r ≤ 255) (hg : g ≤ 255)
    (hb : b ≤ 255) : AsciiPrinter.get_pixel_intensity r g b ≤ 255 := by
  unfold AsciiPrinter.get_pixel_intensity
  have hr' : (r : ℚ) ≤ 255 := by exact_mod_cast hr
  have hg' : (g : ℚ) ≤ 255 := by exact_mod_cast hg
  have hb' : (b : ℚ) ≤ 255 := by exact_mod_cast hb
  nlinarith

/-- Computation rule for `char_index` from rational bounds. -/
theorem char_index_eq (p : AsciiPrinter) (i : ℚ) (k : ℕ)
    (h1 : (k : ℚ) ≤ i / ((256 : ℚ) / (p.chars.length : ℚ)))
    (h2 : i / ((256 : ℚ) / (p.chars.length : ℚ)) < k + 1) :
    p.char_index i = k := by
  unfold AsciiPrinter.char_index
  have hfl : ⌊i / ((256 : ℚ) / (p.chars.length : ℚ))⌋ = (k : ℤ) := by
    rw [Int.floor_eq_iff]
    push_cast
    exact ⟨h1, h2⟩
  rw [hfl]
  simp

/-! ### Claim C1 -/

/-- Claim C1: for every palette of length at least 1 and every intensity in
`[0, 255]`, the index `⌊intensity / (256 / paletteLength)⌋` computed by
`get_char` is strictly less than the palette length, so the palette access is
in bounds and `get_char` returns a character. -/
theorem get_char_in_bounds (p : AsciiPrinter) (i : ℚ) (hl : 1 ≤ p.chars.length)
    (h0 : 0 ≤ i) (h255 : i ≤ 255) :
    p.char_index i < p.chars.length ∧ ∃ c, p.get_char i = some c :=
  ⟨char_index_lt p i hl h0 h255, ⟨_, get_char_eq_some p i hl h0 h255⟩⟩

/-- Witness for C1: the default printer at intensity 255. -/
theorem get_char_in_bounds_witness :
    AsciiPrinter.default.char_index 255 < AsciiPrinter.default.chars.length ∧
      ∃ c, AsciiPrinter.default.get_char 255 = some c :=
  get_char_in_bounds AsciiPrinter.default 255 (by decide) (by norm_num)
    (by norm_num)

/-! ### Claim C9 -/

/-- Claim C9: for a fixed palette, the intensity-to-index mapping is
non-decreasing on `[0, 255]`. -/
theorem char_index_monotone (p : AsciiPrinter) (i1 i2 : ℚ) (h0 : 0 ≤ i1)
    (h12 : i1 ≤ i2) (h255 : i2 ≤ 255) : p.char_index i1 ≤ p.char_index i2 := by
  unfold AsciiPrinter.char_index
  rcases Nat.eq_zero_or_pos p.chars.length with h | h
  · simp [h]
  · have hq : (0 : ℚ) < (256 : ℚ) / (p.chars.length : ℚ) := by
      apply div_pos (by norm_num)
      exact_mod_cast h
    exact Int.toNat_le_toNat (Int.floor_le_floor ((div_le_div_right hq).mpr h12))

/-- Witness for C9: the default printer at intensities 0 and 255. -/
theorem char_index_monotone_witness :
    AsciiPrinter.default.char_index 0 ≤ AsciiPrinter.default.char_index 255 :=
  char_index_monotone AsciiPrinter.default 0 255 (by norm_num) (by norm_num)
    (by norm_num)

/-! ### Claim C10 -/

/-- A builder step of the fluent configuration sequence used by `main`. -/
inductive ConfigStep where
  | loadImage (decoded : Except (List Char) Image)
  | setChars (cs : List Char)
  | setScale (n : Nat)

/-- Apply one builder step to a printer. -/
def applyStep (p : AsciiPrinter) : ConfigStep → AsciiPrinter
  | .loadImage d => p.load_image d
  | .setChars cs => p.set_chars cs
  | .setScale n => p.set_scale n

/-- The palette invariant: non-empty with the space at index 0. -/
def PaletteInv (p : AsciiPrinter) : Prop :=
  1 ≤ p.chars.length ∧ p.chars.head? = some ' '

/-- The palette invariant is preserved by every builder step. -/
theorem paletteInv_foldl (steps : List ConfigStep) (p : AsciiPrinter)
    (hp : PaletteInv p) : PaletteInv (steps.foldl applyStep p) := by
  induction steps generalizing p with
  | nil => exact hp
  | cons s ss ih =>
    apply ih
    cases s with
    | loadImage d => exact hp
    | setChars cs => exact ⟨by simp [applyStep, AsciiPrinter.set_chars], rfl⟩
    | setScale n => exact hp

/-- Claim C10: every printer reachable from `default()` by builder steps has a
non-empty palette with the space at index 0; `load_image` and `set_scale`
leave the palette unchanged, and `set_chars` rebuilds it as a space followed
by the given characters. -/
theorem palette_invariant_all_steps :
    (∀ steps : List ConfigStep,
      1 ≤ ((steps.foldl applyStep AsciiPrinter.default).chars).length ∧
        ((steps.foldl applyStep AsciiPrinter.default).chars).head? = some ' ') ∧
    (∀ (p : AsciiPrinter) (d : Except (List Char) Image),
      (p.load_image d).chars = p.chars) ∧
    (∀ (p : AsciiPrinter) (n : Nat), (p.set_scale n).chars = p.chars) ∧
    (∀ (p : AsciiPrinter) (cs : List Char), (p.set_chars cs).chars = ' ' :: cs) :=
  ⟨fun steps => paletteInv_foldl steps AsciiPrinter.default ⟨by decide, rfl⟩,
    fun _ _ => rfl, fun _ _ => rfl, fun _ _ => rfl⟩

/-! ### Claim C4 -/

/-- Claim C4 counterexample: the default palette has 13 entries, not 14 — the
default string holds only 12 intensity characters, not 13. -/
theorem default_palette_length_ne_14 :
    AsciiPrinter.default.chars.length = 13 ∧
      AsciiPrinter.default.chars.length ≠ 14 := by
  decide

/-- Claim C4 (amended): `default()` has scale 3, no image attached, and a
palette consisting of the space followed by the 12 default intensity
characters, for 13 entries in total. -/
theorem default_printer_spec :
    AsciiPrinter.default.src_img = none ∧ AsciiPrinter.default.scale = 3 ∧
    AsciiPrinter.default.chars =
      [' ', '.', '\'', ',', '^', '"', '~', '+', '-', '=', '#', '@', '$'] ∧
    AsciiPrinter.default.chars.length = 13 :=
  ⟨rfl, rfl, by decide, by decide⟩

/-! ### Claim C2 -/

/-- Claim C2 counterexample: with the custom character list "AB" the palette
is {space, 'A', 'B'}, and intensity 85 — which the claim places in `[85,170)`
and maps to 'A' — is actually mapped to the space, because the real bucket
boundary is `256/3 ≈ 85.33`, not 85. -/
theorem set_chars_AB_intensity85_space :
    (AsciiPrinter.default.set_chars "AB".toList).get_char 85 = some ' ' ∧
      (' ' : Char) ≠ 'A' := by
  have hlen : (((AsciiPrinter.default.set_chars "AB".toList).chars.length : ℚ))
      = 3 := by norm_num [AsciiPrinter.set_chars]
  have hidx : (AsciiPrinter.default.set_chars "AB".toList).char_index 85 = 0 := by
    apply char_index_eq
    · rw [hlen]
      positivity
    · rw [hlen]
      rw [div_lt_iff₀ (by norm_num : (0 : ℚ) < 256 / 3)]
      norm_num
  refine ⟨?_, by decide⟩
  unfold AsciiPrinter.get_char
  rw [hidx]
  rfl

/-- Claim C2 (amended): with the custom character list "AB" the effective
palette is {space, 'A', 'B'} (length 3), and the mapping sends intensities in
`[0, 256/3)` to the space, `[256/3, 512/3)` to 'A', and `[512/3, 256)` to 'B'
(the bucket boundaries are `256/3 ≈ 85.33` and `512/3 ≈ 170.67`). -/
theorem set_chars_AB_buckets (i : ℚ) (h0 : 0 ≤ i) :
    (AsciiPrinter.default.set_chars "AB".toList).chars = [' ', 'A', 'B'] ∧
    (i < 256 / 3 →
      (AsciiPrinter.default.set_chars "AB".toList).get_char i = some ' ') ∧
    (256 / 3 ≤ i → i < 512 / 3 →
      (AsciiPrinter.default.set_chars "AB".toList).get_char i = some 'A') ∧
    (512 / 3 ≤ i → i < 256 →
      (AsciiPrinter.default.set_chars "AB".toList).get_char i = some 'B') := by
  have hlen : (((AsciiPrinter.default.set_chars "AB".toList).chars.length : ℚ))
      = 3 := by norm_num [AsciiPrinter.set_chars]
  have hq : (0 : ℚ) < 256 / 3 := by norm_num
  refine ⟨by decide, fun hi => ?_, fun hi1 hi2 => ?_, fun hi1 hi2 => ?_⟩
  · have hidx : (AsciiPrinter.default.set_chars "AB".toList).char_index i = 0 := by
      apply char_index_eq
      · rw [hlen]
        positivity
      · rw [hlen, div_lt_iff₀ hq]
        push_cast
        linarith
    unfold AsciiPrinter.get_char
    rw [hidx]
    rfl
  · have hidx : (AsciiPrinter.default.set_chars "AB".toList).char_index i = 1 := by
      apply char_index_eq
      · rw [hlen, le_div_iff₀ hq]
        push_cast
        linarith
      · rw [hlen, div_lt_iff₀ hq]
        push_cast
        linarith
    unfold AsciiPrinter.get_char
    rw [hidx]
    rfl
  · have hidx : (AsciiPrinter.default.set_chars "AB".toList).char_index i = 2 := by
      apply char_index_eq
      · rw [hlen, le_div_iff₀ hq]
        push_cast
        linarith
      · rw [hlen, div_lt_iff₀ hq]
        push_cast
        linarith
    unfold AsciiPrinter.get_char
    rw [hidx]
    rfl

/-- Witness for C2 (amended): intensity 100 lies in the middle bucket and maps
to 'A'. -/
theorem set_chars_AB_buckets_witness :
    (0 : ℚ) ≤ 100 ∧
      (AsciiPrinter.default.set_chars "AB".toList).get_char 100 = some 'A' :=
  ⟨by norm_num,
    (set_chars_AB_buckets 100 (by norm_num)).2.2.1 (by norm_num) (by norm_num)⟩

/-! ### Claim C3 -/

/-- Claim C3: `main` passes the raw `--chars` value to `set_chars` without
stripping whitespace, and clap supplies the raw `DEFAULT_CHARS` string when
the flag is absent. Under a default invocation the render-time palette is the
space followed by all 23 characters of the raw default string: it has a space
entry at index 2 (and 12 space entries among its 24 entries), contradicting
the claim that only the leading space remains. -/
theorem main_default_chars_palette_has_inner_space :
    (mainPrinter DEFAULT_CHARS 3 (Except.error "e".toList)).chars.get? 2
        = some ' ' ∧
      (mainPrinter DEFAULT_CHARS 3 (Except.error "e".toList)).chars.length = 24 ∧
      ((mainPrinter DEFAULT_CHARS 3 (Except.error "e".toList)).chars.filter
        (fun c => c = ' ')).length = 12 := by
  decide

/-! ### Claim C8 -/

/-- Claim C8: `set_scale` stores 0 verbatim — nothing rejects or defaults a
zero scale — and rendering a successfully decoded 1×1 image at scale 0
evaluates `y % (scale * 2)` with a zero divisor, i.e. the render loop panics
instead of printing. -/
theorem scale_zero_panics :
    (AsciiPrinter.default.set_scale 0).scale = 0 ∧
      (mainPrinter "AB".toList 0
        (Except.ok { width := 1, height := 1, pixel := fun _ _ => (0, 0, 0) })).into_print
        = RenderResult.panic :=
  ⟨rfl, rfl⟩

/-! ### Claim C6 -/

/-- A list starting with a character `a` followed by an appended tail never
equals a list starting with a different character `b`. -/
theorem cons_append_ne_of_head (a b : Char) (l1 l2 d : List Char)
    (hab : a ≠ b) : (a :: l1) ++ d ≠ b :: l2 := by
  intro h
  rw [List.cons_append] at h
  injection h with h1 _
  exact hab h1

/-- The `Display` rendering of an `AppError` always carries one of the four
prefixes, so it never equals the bare string "no image selected". -/
theorem displayAppError_ne_no_image (e : AppError) :
    displayAppError e ≠ "no image selected".toList := by
  unfold displayAppError
  by_cases h1 : e.kind = "io".toList
  · simp only [h1, if_pos]
    exact cons_append_ne_of_head 'i' 'n' "o error: ".toList
      "o image selected".toList e.detail (by decide)
  · by_cases h2 : e.kind = "img".toList
    · simp only [h1, h2, if_neg, if_pos, ite_false, ite_true]
      exact cons_append_ne_of_head 'l' 'n' "oad img error: ".toList
        "o image selected".toList e.detail (by decide)
    · by_cases h3 : e.kind = "conf".toList
      · simp only [h1, h2, h3, if_neg, if_pos, ite_false, ite_true]
        exact cons_append_ne_of_head 'c' 'n' "onfiguration error: ".toList
          "o image selected".toList e.detail (by decide)
      · simp only [h1, h2, h3, if_neg, ite_false]
        exact cons_append_ne_of_head 'U' 'n' "nknown error occured: ".toList
          "o image selected".toList e.detail (by decide)

/-- Claim C6 counterexample: when the stored decode result is an error with
detail "bad", `into_print` fails with detail "load img error: bad" — the
original decoder message is prefixed, not propagated unchanged. -/
theorem into_print_wraps_load_error_detail :
    (AsciiPrinter.default.load_image (Except.error "bad".toList)).into_print
        = RenderResult.err
          { kind := "img".toList, detail := "load img error: bad".toList } ∧
      "load img error: bad".toList ≠ "bad".toList := by
  decide

/-- Claim C6 (amended): `into_print` fails with the image-category error
"no image selected" exactly when no image was ever attached, and when the
stored decode result is an error it fails with an image-category error whose
detail is the stored error's `Display` rendering — the original decoder
message prefixed by "load img error: " — rather than the bare message. -/
theorem into_print_error_cases (p : AsciiPrinter) :
    (p.src_img = none →
      p.into_print = RenderResult.err
        { kind := "img".toList, detail := "no image selected".toList }) ∧
    (p.into_print = RenderResult.err
        { kind := "img".toList, detail := "no image selected".toList } →
      p.src_img = none) ∧
    (∀ msg : List Char,
      (p.load_image (Except.error msg)).into_print = RenderResult.err
        { kind := "img".toList, detail := "load img error: ".toList ++ msg }) := by
  refine ⟨fun h => by simp [AsciiPrinter.into_print, h], fun h => ?_, fun msg => ?_⟩
  · rcases hp : p.src_img with _ | res
    · rfl
    · cases res with
      | error e =>
        rw [AsciiPrinter.into_print, hp] at h
        simp only [RenderResult.err.injEq, AppError.mk.injEq] at h
        exact absurd h.2 (displayAppError_ne_no_image e)
      | ok img =>
        rw [AsciiPrinter.into_print, hp] at h
        rcases hr : renderRows p img (List.range img.height) with _ | rows
        · simp [hr] at h
        · simp [hr] at h
  · have hne : ¬(("img".toList : List Char) = "io".toList) := by decide
    have hd : displayAppError { kind := "img".toList, detail := msg }
        = "load img error: ".toList ++ msg := by
      unfold displayAppError
      simp only [if_neg hne, if_true]
    have hstep : (p.load_image (Except.error msg)).into_print
        = RenderResult.err
          { kind := "img".toList,
            detail := displayAppError { kind := "img".toList, detail := msg } } :=
      rfl
    rw [hstep, hd]

/-- Witness for C6 (amended): a printer with no image attached. -/
theorem into_print_error_cases_witness :
    ({ src_img := none, chars := [' '], scale := 3 } : AsciiPrinter).into_print
      = RenderResult.err
        { kind := "img".toList, detail := "no image selected".toList } :=
  (into_print_error_cases
    { src_img := none, chars := [' '], scale := 3 }).1 rfl

/-! ### Claim C7 -/

/-- Modelled from the spec: the message form
`<category> error: <detail>` with category drawn from
{io, load-image, configuration, unknown}. Stated from the spec's words to be
compared with the `Display` implementation in the source. -/
def specMessageForm (msg detail : List Char) : Prop :=
  ∃ cat ∈ ["io".toList, "load-image".toList, "configuration".toList,
    "unknown".toList], msg = cat ++ " error: ".toList ++ detail

/-- Claim C7 counterexample: an image-category error with detail "boom" is
rendered as "load img error: boom", which is not of the form
`<category> error: <detail>` for any category in
{io, load-image, configuration, unknown}. -/
theorem display_img_not_spec_form :
    displayAppError { kind := "img".toList, detail := "boom".toList }
        = "load img error: boom".toList ∧
      ¬ specMessageForm
        (displayAppError { kind := "img".toList, detail := "boom".toList })
        ("boom".toList) := by
  constructor
  · decide
  · unfold specMessageForm
    decide

/-- Claim C7 (amended): every formatted error message is one of four fixed
prefixes followed by the detail verbatim: "io error: " for kind io,
"load img error: " for kind img, "configuration error: " for kind conf, and
"Unknown error occured: " for every other kind. (The non-zero exit status on
`Err` is Rust runtime behaviour outside this embedding.) -/
theorem display_message_prefix_forms (e : AppError) :
    ∃ pre ∈ ["io error: ".toList, "load img error: ".toList,
      "configuration error: ".toList, "Unknown error occured: ".toList],
      displayAppError e = pre ++ e.detail := by
  by_cases h1 : e.kind = "io".toList
  · exact ⟨"io error: ".toList, by decide,
      by simp only [displayAppError, if_pos h1]⟩
  · by_cases h2 : e.kind = "img".toList
    · exact ⟨"load img error: ".toList, by decide,
        by simp only [displayAppError, if_neg h1, if_pos h2]⟩
    · by_cases h3 : e.kind = "conf".toList
      · exact ⟨"configuration error: ".toList, by decide,
          by simp only [displayAppError, if_neg h1, if_neg h2, if_pos h3]⟩
      · exact ⟨"Unknown error occured: ".toList, by decide,
          by simp only [displayAppError, if_neg h1, if_neg h2, if_neg h3]⟩

/-! ### Claim C5 -/

/-- For a positive, non-overflowing scale, the loop condition evaluates (no
panic) to `true` exactly on sampled coordinates: emitted row and sampled
column. -/
theorem sampleCond_true (p : AsciiPrinter) (y x : Nat) (hs : 1 ≤ p.scale)
    (h31 : p.scale < 2 ^ 31) (hy : y % (p.scale * 2) = 0)
    (hx : x % p.scale = 0) : sampleCond p y x = some true := by
  unfold sampleCond checkedMod
  rw [Nat.mod_eq_of_lt (by omega : p.scale * 2 < 2 ^ 32),
    if_neg (by omega : ¬(p.scale * 2 = 0))]
  simp [hy, if_neg (by omega : ¬(p.scale = 0)), hx]

/-- For a positive, non-overflowing scale, rows that are not emitted give
`some false` at every column (the second conjunct is not evaluated). -/
theorem sampleCond_false_row (p : AsciiPrinter) (y x : Nat) (hs : 1 ≤ p.scale)
    (h31 : p.scale < 2 ^ 31) (hy : y % (p.scale * 2) ≠ 0) :
    sampleCond p y x = some false := by
  unfold sampleCond checkedMod
  rw [Nat.mod_eq_of_lt (by omega : p.scale * 2 < 2 ^ 32),
    if_neg (by omega : ¬(p.scale * 2 = 0))]
  simp [hy]

/-- For a positive, non-overflowing scale, skipped columns of an emitted row
give `some false`. -/
theorem sampleCond_false_col (p : AsciiPrinter) (y x : Nat) (hs : 1 ≤ p.scale)
    (h31 : p.scale < 2 ^ 31) (hy : y % (p.scale * 2) = 0)
    (hx : x % p.scale ≠ 0) : sampleCond p y x = some false := by
  unfold sampleCond checkedMod
  rw [Nat.mod_eq_of_lt (by omega : p.scale * 2 < 2 ^ 32),
    if_neg (by omega : ¬(p.scale * 2 = 0))]
  simp [hy, if_neg (by omega : ¬(p.scale = 0)), hx]

/-- With a non-empty palette and a well-formed image, sampling a pixel never
panics: it returns the total `samplePixelCharD` value. -/
theorem samplePixelChar_eq_some (p : AsciiPrinter) (img : Image)
    (hl : 1 ≤ p.chars.length) (hw : img.WellFormed) (x y : Nat) :
    samplePixelChar p img x y = some (samplePixelCharD p img x y) := by
  obtain ⟨hr, hg, hb⟩ := hw x y
  have h0 := get_pixel_intensity_nonneg (img.pixel x y).1 (img.pixel x y).2.1
    (img.pixel x y).2.2
  have h255 := get_pixel_intensity_le (img.pixel x y).1 (img.pixel x y).2.1
    (img.pixel x y).2.2 hr hg hb
  unfold samplePixelChar samplePixelCharD samplePixelChar
  rw [get_char_eq_some p _ hl h0 h255]
  rfl

/-- A skipped row prints nothing, whatever the column list. -/
theorem buildRow_row_skipped (p : AsciiPrinter) (img : Image) (y : Nat)
    (hs : 1 ≤ p.scale) (h31 : p.scale < 2 ^ 31) (hy : y % (p.scale * 2) ≠ 0)
    (xs : List Nat) : buildRow p img y xs = some [] := by
  induction xs with
  | nil => rfl
  | cons x xs ih =>
    simp only [buildRow, sampleCond_false_row p y x hs h31 hy]
    exact ih

/-- An emitted row prints exactly the sampled columns, in order. -/
theorem buildRow_row_emitted (p : AsciiPrinter) (img : Image) (y : Nat)
    (hs : 1 ≤ p.scale) (h31 : p.scale < 2 ^ 31) (hl : 1 ≤ p.chars.length)
    (hw : img.WellFormed) (hy : y % (p.scale * 2) = 0) (xs : List Nat) :
    buildRow p img y xs = some ((xs.filter (fun x => x % p.scale = 0)).map
      (fun x => samplePixelCharD p img x y)) := by
  induction xs with
  | nil => rfl
  | cons x xs ih =>
    by_cases hx : x % p.scale = 0
    · simp only [buildRow, sampleCond_true p y x hs h31 hy hx,
        samplePixelChar_eq_some p img hl hw x y, ih]
      simp [List.filter_cons, hx]
    · simp only [buildRow, sampleCond_false_col p y x hs h31 hy hx, ih]
      simp [List.filter_cons, hx]

/-- Closed form of the outer loop: one line per emitted row, each line the
sampled columns of that row. -/
theorem renderRows_eq (p : AsciiPrinter) (img : Image) (hs : 1 ≤ p.scale)
    (h31 : p.scale < 2 ^ 31) (hl : 1 ≤ p.chars.length) (hw : img.WellFormed)
    (ys : List Nat) :
    renderRows p img ys = some
      ((ys.filter (fun y => y % (p.scale * 2) = 0)).map
        (fun y => ((List.range img.width).filter (fun x => x % p.scale = 0)).map
          (fun x => samplePixelCharD p img x y))) := by
  induction ys with
  | nil => rfl
  | cons y ys ih =>
    have hmod : checkedMod y ((p.scale * 2) % 2 ^ 32)
        = some (y % (p.scale * 2)) := by
      unfold checkedMod
      rw [Nat.mod_eq_of_lt (by omega : p.scale * 2 < 2 ^ 32),
        if_neg (by omega : ¬(p.scale * 2 = 0))]
    by_cases hy : y % (p.scale * 2) = 0
    · simp only [renderRows, buildRow_row_emitted p img y hs h31 hl hw hy
        (List.range img.width), hmod, ih]
      simp [List.filter_cons, hy]
    · simp only [renderRows, buildRow_row_skipped p img y hs h31 hy
        (List.range img.width), hmod, ih]
      simp [List.filter_cons, hy]

/-- The number of multiples of `s` in `[0, W)` is `⌈W / s⌉ = (W + s - 1) / s`
for `s ≥ 1`. -/
theorem count_multiples (s : Nat) (hs : 1 ≤ s) (W : Nat) :
    ((List.range W).filter (fun x => x % s = 0)).length = (W + s - 1) / s := by
  have hs0 : 0 < s := hs
  induction W with
  | zero =>
    simp only [List.range_zero, List.filter_nil, List.length_nil]
    have e : 0 + s - 1 = s - 1 := by omega
    rw [e, Nat.div_eq_of_lt (by omega)]
  | succ W ih =>
    rw [List.range_succ, List.filter_append, List.length_append, ih]
    have e : W + 1 + s - 1 = (W + s - 1) + 1 := by omega
    rw [e, Nat.succ_div]
    have hdvd : (s ∣ W + s - 1 + 1) ↔ (W % s = 0) := by
      have e2 : W + s - 1 + 1 = W + s := by omega
      rw [e2, Nat.dvd_add_self_right]
      exact Nat.dvd_iff_mod_eq_zero
    simp only [hdvd]
    by_cases h : W % s = 0
    · simp [List.filter_cons, h]
    · simp [List.filter_cons, h]

/-- A 1×1 all-black image for the C5 counterexample. -/
def overflowImage : Image :=
  { width := 1, height := 1, pixel := fun _ _ => (0, 0, 0) }

/-- A printer holding `overflowImage` at scale `2 ^ 31` — a value clap's
`u32` parser accepts, and the smallest scale whose `u32` product
`scale * 2` wraps (to 0). -/
def overflowPrinter : AsciiPrinter :=
  { src_img := some (Except.ok overflowImage), chars := [' ', 'A', 'B'],
    scale := 2 ^ 31 }

/-- Claim C5 counterexample: scale `2 ^ 31` is at least 1 and accepted by the
`u32` CLI parser, yet on a successfully decoded 1×1 image the render loop
panics — the `u32` product `scale * 2` wraps to 0 and `y % 0` faults (a
debug build aborts on the multiply itself) — so `into_print` does not
produce the grid the claim promises for every scale `≥ 1`. -/
theorem into_print_scale_overflow_panics :
    1 ≤ overflowPrinter.scale ∧
    (overflowPrinter.scale * 2) % 2 ^ 32 = 0 ∧
    overflowPrinter.into_print = RenderResult.panic ∧
    overflowPrinter.into_print ≠ RenderResult.ok
      (((List.range 1).filter (fun y => y % (2 ^ 31 * 2) = 0)).map
        (fun y => ((List.range 1).filter (fun x => x % 2 ^ 31 = 0)).map
          (fun x => samplePixelCharD overflowPrinter overflowImage x y))
        ++ [[]]) := by
  refine ⟨by norm_num [overflowPrinter], by norm_num [overflowPrinter], rfl, ?_⟩
  rw [show overflowPrinter.into_print = RenderResult.panic from rfl]
  simp

/-- Claim C5 (amended): for a successfully decoded `W`-by-`H` image, a
non-empty palette and a scale with `1 ≤ scale < 2 ^ 31` — the bound so that
the `u32` product `scale * 2` does not overflow; at larger accepted scales
the render loop faults instead of printing — `into_print` outputs exactly
one line per row `y` in `[0, H)` with `y % (2·scale) = 0`, that line being
the characters of the sampled columns `x % scale = 0` in increasing `x`
order, with skipped pixels omitted and the line present even when empty,
followed by exactly one trailing blank line; each emitted line has
`⌈W / scale⌉ = (W + scale - 1) / scale` characters. -/
theorem into_print_grid_structure (p : AsciiPrinter) (img : Image)
    (himg : p.src_img = some (Except.ok img)) (hs : 1 ≤ p.scale)
    (h31 : p.scale < 2 ^ 31) (hl : 1 ≤ p.chars.length) (hw : img.WellFormed) :
    p.into_print = RenderResult.ok
      (((List.range img.height).filter (fun y => y % (p.scale * 2) = 0)).map
        (fun y => ((List.range img.width).filter (fun x => x % p.scale = 0)).map
          (fun x => samplePixelCharD p img x y)) ++ [[]]) ∧
    ((List.range img.width).filter (fun x => x % p.scale = 0)).length
      = (img.width + p.scale - 1) / p.scale := by
  refine ⟨?_, count_multiples p.scale hs img.width⟩
  rw [AsciiPrinter.into_print]
  simp only [himg]
  rw [renderRows_eq p img hs h31 hl hw (List.range img.height)]

/-- A concrete 10×10 all-black image for the C5 witness. -/
def witnessImage : Image :=
  { width := 10, height := 10, pixel := fun _ _ => (0, 0, 0) }

/-- A concrete printer holding `witnessImage` with palette {space,'A','B'}
and scale 2, for the C5 witness. -/
def witnessPrinter : AsciiPrinter :=
  { src_img := some (Except.ok witnessImage), chars := [' ', 'A', 'B'],
    scale := 2 }

/-- Witness for C5: a 10×10 image at scale 2 — rows 0, 4, 8 emitted, 5
characters per line, one trailing blank line. -/
theorem into_print_grid_structure_witness :
    witnessPrinter.into_print = RenderResult.ok
      (((List.range 10).filter (fun y => y % 4 = 0)).map
        (fun y => ((List.range 10).filter (fun x => x % 2 = 0)).map
          (fun x => samplePixelCharD witnessPrinter witnessImage x y)) ++ [[]]) ∧
    ((List.range 10).filter (fun x => x % 2 = 0)).length = (10 + 2 - 1) / 2 :=
  into_print_grid_structure witnessPrinter witnessImage rfl (by decide)
    (by norm_num [witnessPrinter]) (by decide)
    (fun _ _ => ⟨Nat.zero_le 255, Nat.zero_le 255, Nat.zero_le 255⟩)
